import Mathlib

/-
Verification development for GUI_Enterprise_TI.py: a shallow embedding of the
enrichment pipeline (CDN detection, geolocation, table display, database store,
spreadsheet export) together with theorems settling the specification claims.

External services (DNS, HTTP, ip-api.com, geopy/Nominatim) are modelled as
deterministic oracles; every embedded operation additionally records, in order,
the external calls it issues, so that call-occurrence properties (such as
"no HTTP probe is issued") are provable.
-/

namespace GUIEnterpriseTI

/-- The fixed catalog of CDN provider names (constant COMMON_CDN_NAMES, source line 12). -/
def COMMON_CDN_NAMES : List String :=
  ["cloudflare", "akamai", "fastly", "maxcdn", "cloudfront",
   "azure cdn", "google cloud cdn", "stackpath", "limelight", "incapsula"]

/-- A DNS lookup failure raised by dns.resolver.resolve: the name does not resolve,
the resolver times out, or the network is unreachable. -/
inductive ResolutionError
  | nxdomain
  | timeout
  | unreachable
  deriving DecidableEq

/-- A requests-level failure for an HTTP GET (connection refused, timeout, bad body,
too many redirects); all are subclasses of requests RequestException. -/
inductive RequestError
  | connectionError
  | timeout
  deriving DecidableEq

/-- An HTTP response as delivered by requests.get: the final status code and the
response headers. -/
structure HttpResponse where
  status : Nat
  headers : List (String × String)
  deriving DecidableEq

/-- The reply of ip-api.com: HTTP status plus the JSON body, modelled as a
string-valued object in which a missing key means Python raises KeyError. -/
structure IpApiResponse where
  status : Nat
  body : List (String × String)
  deriving DecidableEq

/-- One external call issued during enrichment, recorded in issue order. -/
inductive Call
  | dnsResolve (hostname : String)
  | httpGet (url : String)
  | ipApiGet (ip : String)
  | geopyReverse (ip : String)
  deriving DecidableEq

/-- Deterministic models of the external services the program consults. -/
structure Oracles where
  dns : String → Except ResolutionError (List String)
  httpGet : String → Except RequestError HttpResponse
  ipApi : String → Except RequestError IpApiResponse
  geopyReverse : String → Except RequestError (Option String)

/-- Python str.lower, character by character; the catalog names and header
alphabet are ASCII, for which this agrees with Python. -/
def str_lower (s : String) : String :=
  String.mk (s.data.map Char.toLower)

/-- Python substring test (the in operator on strings): the needle occurs
contiguously in the haystack. -/
def str_contains (haystack needle : String) : Bool :=
  decide (needle.data <:+: haystack.data)

/-- requests response.headers.get(key, default): HTTP header lookup is
case-insensitive in requests. -/
def headers_get (headers : List (String × String)) (key dflt : String) : String :=
  match headers.find? (fun p => str_lower p.1 == str_lower key) with
  | some p => p.2
  | none => dflt

/-- requests Response.raise_for_status raises HTTPError exactly for final status
codes in the 4xx and 5xx ranges. -/
def raise_for_status_raises (status : Nat) : Bool :=
  decide (400 ≤ status ∧ status < 600)

/-- Python dict indexing data[key] on a string-valued JSON object: some value when
the key is present, none standing for the KeyError path. -/
def json_lookup (body : List (String × String)) (key : String) : Option String :=
  (body.find? (fun p => p.1 == key)).map (fun p => p.2)

/-- check_cdn_usage (source lines 20-28): resolve the A records of the hostname,
collect the addresses, and report whether at least two came back. The resolve call
is not guarded by any try block, so a resolver exception escapes to the caller. -/
def check_cdn_usage (o : Oracles) (hostname : String) :
    Except ResolutionError Bool × List Call :=
  match o.dns hostname with
  | .error e => (.error e, [Call.dnsResolve hostname])
  | .ok answers =>
    let ipv4_addresses := answers.foldl (fun acc a => acc ++ [a]) []
    (.ok (decide (2 ≤ ipv4_addresses.length)), [Call.dnsResolve hostname])

/-- The matching loop of identify_cdn_provider: the first catalog name whose
lowercased text occurs in the (already lowercased) Server header, else None. -/
def first_matching_cdn : List String → String → Option String
  | [], _ => none
  | cdn_name :: rest, server_header =>
    if str_contains server_header (str_lower cdn_name) then some cdn_name
    else first_matching_cdn rest server_header

/-- The value computed by identify_cdn_provider (source lines 151-166) for a given
url: on any requests error, or on a 4xx/5xx status surfaced by raise_for_status
(both caught by the except clause), None; otherwise the first catalog name occurring
in the lowercased Server header (absent header defaulting to the empty string). -/
def cdn_header_verdict (o : Oracles) (url : String) : Option String :=
  match o.httpGet url with
  | .error _ => none
  | .ok response =>
    if raise_for_status_raises response.status then none
    else
      first_matching_cdn COMMON_CDN_NAMES
        (str_lower (headers_get response.headers "Server" ""))

/-- identify_cdn_provider (source lines 151-166): issues exactly one GET to
http://hostname and returns the header verdict; never raises. -/
def identify_cdn_provider (o : Oracles) (hostname : String) :
    Option String × List Call :=
  (cdn_header_verdict o ("http://" ++ hostname),
   [Call.httpGet ("http://" ++ hostname)])

/-- The value computed by the primary geolocation lookup
_get_ip_location_with_ip_api (source lines 140-149): the city field, only when the
request succeeded, raise_for_status did not raise, and the JSON body carries an
explicit "success" status; every exception path (network error, HTTPError,
KeyError on status or city) is caught and yields None. -/
def ip_api_city (o : Oracles) (ip_address : String) : Option String :=
  match o.ipApi ip_address with
  | .error _ => none
  | .ok r =>
    if raise_for_status_raises r.status then none
    else
      match json_lookup r.body "status" with
      | none => none
      | some s => if s == "success" then json_lookup r.body "city" else none

/-- _get_ip_location_with_ip_api issues exactly one call to ip-api.com. -/
def get_ip_location_with_ip_api (o : Oracles) (ip_address : String) :
    Option String × List Call :=
  (ip_api_city o ip_address, [Call.ipApiGet ip_address])

/-- The value computed by the fallback lookup _get_ip_location_with_geopy (source
lines 132-138): the formatted address of the reverse-geocoding result; a provider
exception, or a None result (whose .address access raises AttributeError), is
caught and yields None. -/
def geopy_address (o : Oracles) (ip_address : String) : Option String :=
  match o.geopyReverse ip_address with
  | .error _ => none
  | .ok none => none
  | .ok (some address) => some address

/-- _get_ip_location_with_geopy issues exactly one reverse-geocoding call. -/
def get_ip_location_with_geopy (o : Oracles) (ip_address : String) :
    Option String × List Call :=
  (geopy_address o ip_address, [Call.geopyReverse ip_address])

/-- get_ip_location (source lines 124-130): try the primary ip-api lookup; only
when it returned None, fall back to the geopy lookup; return whatever the chain
produced, possibly None. -/
def get_ip_location (o : Oracles) (ip_address : String) :
    Option String × List Call :=
  match get_ip_location_with_ip_api o ip_address with
  | (none, calls1) =>
    match get_ip_location_with_geopy o ip_address with
    | (loc2, calls2) => (loc2, calls1 ++ calls2)
  | (some l, calls1) => (some l, calls1)

/-- One element of the data array of the API response: its ip and port fields, and
the service.http.host field when the service block contains an http entry (none
models a service structure lacking the http sub-key). -/
structure RawItem where
  ip : String
  port : Nat
  service_http_host : Option String
  deriving DecidableEq

/-- One row added to the PrettyTable by display_results. -/
structure Row where
  index : Nat
  hostname : String
  ip : String
  port : Nat
  location : String
  cdn : Option String
  deriving DecidableEq

/-- Python x or y for an optional string: None and the empty string are falsy, so
both render as the default. -/
def py_or_str (x : Option String) (dflt : String) : String :=
  match x with
  | none => dflt
  | some s => if s == "" then dflt else s

/-- One iteration of the display loop: either a table row (record whose service has
an http block) or a printed warning naming the skipped position. -/
inductive DisplayStep
  | row (r : Row)
  | warning (index : Nat)
  deriving DecidableEq

/-- The body of the loop in display_results (source lines 99-120) for one
enumerated item: invalid records yield a warning; valid records run the DNS
multiplicity check (whose error escapes), then the HTTP probe only when the check
reported at least two addresses, then the geolocation chain. -/
def display_item (o : Oracles) (index : Nat) (item : RawItem) :
    Except ResolutionError DisplayStep × List Call :=
  match item.service_http_host with
  | none => (.ok (.warning index), [])
  | some hostname =>
    match check_cdn_usage o hostname with
    | (.error e, calls1) => (.error e, calls1)
    | (.ok usage, calls1) =>
      let probe := if usage then identify_cdn_provider o hostname
                   else (some "未知", [])
      let loc := get_ip_location o item.ip
      (.ok (.row { index := index, hostname := hostname, ip := item.ip,
                   port := item.port, location := py_or_str loc.1 "未知",
                   cdn := probe.1 }),
       calls1 ++ probe.2 ++ loc.2)

/-- The enumerate loop of display_results, indices starting at the given value;
an uncaught exception aborts the remaining iterations. -/
def display_loop (o : Oracles) (index : Nat) :
    List RawItem → Except ResolutionError (List DisplayStep) × List Call
  | [] => (.ok [], [])
  | item :: rest =>
    match display_item o index item with
    | (.error e, calls1) => (.error e, calls1)
    | (.ok step, calls1) =>
      match display_loop o (index + 1) rest with
      | (.error e, calls2) => (.error e, calls1 ++ calls2)
      | (.ok steps, calls2) => (.ok (step :: steps), calls1 ++ calls2)

/-- display_results (source lines 90-122) restricted to its traversal of the data
array: the ordered steps (rows and warnings) it produces, or the uncaught
exception that aborts the loop before the table is printed. enumerate starts at 1
over all records, invalid ones included. -/
def display_results (o : Oracles) (data : List RawItem) :
    Except ResolutionError (List DisplayStep) × List Call :=
  display_loop o 1 data

/-- The rows actually added to the table, in order (warnings dropped). -/
def display_rows (steps : List DisplayStep) : List Row :=
  steps.filterMap (fun s =>
    match s with
    | .row r => some r
    | .warning _ => none)

/-- The index column of the rendered table; empty when the loop aborted. -/
def display_index_column (o : Oracles) (data : List RawItem) : List Nat :=
  match (display_results o data).1 with
  | .ok steps => (display_rows steps).map Row.index
  | .error _ => []

/-- The CDN column of the rendered table; empty when the loop aborted. -/
def display_cdn_column (o : Oracles) (data : List RawItem) : List (Option String) :=
  match (display_results o data).1 with
  | .ok steps => (display_rows steps).map Row.cdn
  | .error _ => []

/-- store_to_database (source lines 46-53): the rows_to_insert comprehension over
the raw data; the unguarded item service http host access raises KeyError at the
first record whose service lacks the http block. -/
def store_rows : List RawItem → Except String (List (String × String × Nat))
  | [] => .ok []
  | item :: rest =>
    match item.service_http_host with
    | none => .error "http"
    | some host =>
      match store_rows rest with
      | .error e => .error e
      | .ok rows => .ok ((host, item.ip, item.port) :: rows)

/-- One spreadsheet row assembled by export_to_excel. -/
structure ExcelRow where
  index : Nat
  hostname : String
  ip : String
  port : Nat
  location : Option String
  cdn : Option String
  deriving DecidableEq

/-- The tuple built by export_to_excel (source lines 206-216) for one zero-based
enumerated item: the service http host access is unguarded (KeyError on a missing
http block, before any lookup for that item); otherwise the geolocation chain runs,
then the HTTP probe, with no DNS multiplicity gate at all. -/
def export_item (o : Oracles) (index : Nat) (item : RawItem) :
    Except String ExcelRow × List Call :=
  match item.service_http_host with
  | none => (.error "http", [])
  | some host =>
    let loc := get_ip_location o item.ip
    let probe := identify_cdn_provider o host
    (.ok { index := index + 1, hostname := host, ip := item.ip, port := item.port,
           location := loc.1, cdn := probe.1 },
     loc.2 ++ probe.2)

/-- The enumerate loop of the export comprehension, zero-based; the first KeyError
aborts it. -/
def export_loop (o : Oracles) (index : Nat) :
    List RawItem → Except String (List ExcelRow) × List Call
  | [] => (.ok [], [])
  | item :: rest =>
    match export_item o index item with
    | (.error e, calls1) => (.error e, calls1)
    | (.ok row, calls1) =>
      match export_loop o (index + 1) rest with
      | (.error e, calls2) => (.error e, calls1 ++ calls2)
      | (.ok rows, calls2) => (.ok (row :: rows), calls1 ++ calls2)

/-- export_to_excel (source lines 205-216) restricted to the data list it writes. -/
def export_to_excel_data (o : Oracles) (data : List RawItem) :
    Except String (List ExcelRow) × List Call :=
  export_loop o 0 data

/-- The CDN column of the spreadsheet; empty when the comprehension raised. -/
def export_cdn_column (o : Oracles) (data : List RawItem) : List (Option String) :=
  match (export_to_excel_data o data).1 with
  | .ok rows => rows.map ExcelRow.cdn
  | .error _ => []

/-- An error aborting the per-query run of main. -/
inductive RunError
  | resolution (e : ResolutionError)
  | keyError (k : String)
  deriving DecidableEq

/-- The per-query sequencing of main (source lines 196-200): the table traversal
runs first, then the database insert over the same raw data, then the spreadsheet
export; the first uncaught exception aborts the run. -/
def main_run (o : Oracles) (data : List RawItem) :
    Except RunError (List DisplayStep × List (String × String × Nat) × List ExcelRow) :=
  match (display_results o data).1 with
  | .error e => .error (RunError.resolution e)
  | .ok steps =>
    match store_rows data with
    | .error k => .error (RunError.keyError k)
    | .ok rows =>
      match (export_to_excel_data o data).1 with
      | .error k => .error (RunError.keyError k)
      | .ok erows => .ok (steps, rows, erows)

/-- Python str.replace specialised to a one-character pattern, acting on the
character list: every occurrence of old is replaced by the string new. All three
replace calls in the source (space to underscore, colon to empty, double quote to
empty) have one-character patterns. -/
def replace_char (old : Char) (new : List Char) : List Char → List Char
  | [] => []
  | c :: cs => (if c = old then new else [c]) ++ replace_char old new cs

/-- The file-name computation of export_to_excel (source lines 220-221):
query_term.replace(space, underscore).replace(colon, empty).replace(quote, empty). -/
def query_filename (query_term : String) : String :=
  String.mk (replace_char '\x22' []
    (replace_char ':' [] (replace_char ' ' ['_'] query_term.data)))

/-- The full spreadsheet file name (source line 221). -/
def export_file_name (query_term : String) : String :=
  "quake_results_" ++ query_filename query_term ++ ".xlsx"

/-- A concrete oracle: every hostname resolves to one single address, the probe
answers 200 with a cloudflare Server header, and both geolocation providers fail. -/
def oracle_single_ip : Oracles :=
  { dns := fun _ => .ok ["198.51.100.7"]
    httpGet := fun _ => .ok { status := 200, headers := [("Server", "cloudflare")] }
    ipApi := fun _ => .error RequestError.connectionError
    geopyReverse := fun _ => .error RequestError.timeout }

/-- A syntactic copy of oracle_single_ip, used to exhibit two-run determinism
across distinct oracle values. -/
def oracle_single_ip_alt : Oracles :=
  { dns := fun _ => .ok ["198.51.100.7"]
    httpGet := fun _ => .ok { status := 200, headers := [("Server", "cloudflare")] }
    ipApi := fun _ => .error RequestError.connectionError
    geopyReverse := fun _ => .error RequestError.timeout }

/-- A concrete oracle on which every DNS resolution fails. -/
def oracle_dns_failure : Oracles :=
  { dns := fun _ => .error ResolutionError.nxdomain
    httpGet := fun _ => .ok { status := 200, headers := [("Server", "cloudflare")] }
    ipApi := fun _ => .error RequestError.connectionError
    geopyReverse := fun _ => .error RequestError.timeout }

/-- A concrete oracle: two A records per hostname, probe answering 200 with a
mixed-case Fastly Server header, both geolocation providers succeeding. -/
def oracle_multi_ip : Oracles :=
  { dns := fun _ => .ok ["198.51.100.7", "198.51.100.8"]
    httpGet := fun _ => .ok { status := 200, headers := [("Server", "Fastly CDN")] }
    ipApi := fun _ => .ok { status := 200,
                            body := [("status", "success"), ("city", "Berlin")] }
    geopyReverse := fun _ => .ok (some "Fallback Address") }

/-- A concrete oracle: two A records per hostname, but the probe returns a 304
Not Modified carrying a cloudflare Server header. -/
def oracle_not_modified : Oracles :=
  { dns := fun _ => .ok ["198.51.100.7", "198.51.100.8"]
    httpGet := fun _ => .ok { status := 304, headers := [("Server", "cloudflare")] }
    ipApi := fun _ => .error RequestError.connectionError
    geopyReverse := fun _ => .error RequestError.timeout }

/-- A concrete oracle: two A records per hostname and a probe that times out. -/
def oracle_probe_down : Oracles :=
  { dns := fun _ => .ok ["198.51.100.7", "198.51.100.8"]
    httpGet := fun _ => .error RequestError.timeout
    ipApi := fun _ => .error RequestError.connectionError
    geopyReverse := fun _ => .error RequestError.timeout }

/-- A raw page of three records whose middle record lacks the http block. -/
def page_with_invalid : List RawItem :=
  [{ ip := "192.0.2.1", port := 80, service_http_host := some "a.example" },
   { ip := "192.0.2.2", port := 81, service_http_host := none },
   { ip := "192.0.2.3", port := 82, service_http_host := some "c.example" }]

/-- A raw page of two valid records. -/
def page_two_valid : List RawItem :=
  [{ ip := "192.0.2.10", port := 80, service_http_host := some "down.example" },
   { ip := "192.0.2.11", port := 80, service_http_host := some "up.example" }]

/-- A raw page of one valid record. -/
def page_single_valid : List RawItem :=
  [{ ip := "192.0.2.5", port := 443, service_http_host := some "solo.example" }]

/-- The single valid item of page_single_valid. -/
def item_solo : RawItem :=
  { ip := "192.0.2.5", port := 443, service_http_host := some "solo.example" }

/-- The loop of check_cdn_usage copies the answer list: folding append over it
rebuilds the original list. -/
theorem foldl_snoc_eq (l acc : List String) :
    l.foldl (fun acc a => acc ++ [a]) acc = acc ++ l := by
  induction l generalizing acc with
  | nil => simp
  | cons a l ih => rw [List.foldl_cons, ih]; simp

/-- check_cdn_usage on a hostname whose resolution succeeds: one DNS call and the
two-address threshold test. -/
theorem check_cdn_usage_ok (o : Oracles) (hostname : String) (addrs : List String)
    (h : o.dns hostname = .ok addrs) :
    check_cdn_usage o hostname =
      (.ok (decide (2 ≤ addrs.length)), [Call.dnsResolve hostname]) := by
  simp [check_cdn_usage, h, foldl_snoc_eq]

/-- check_cdn_usage on a hostname whose resolution fails: the error value escapes. -/
theorem check_cdn_usage_error (o : Oracles) (hostname : String) (e : ResolutionError)
    (h : o.dns hostname = .error e) :
    check_cdn_usage o hostname = (.error e, [Call.dnsResolve hostname]) := by
  simp [check_cdn_usage, h]

/-- get_ip_location, unfolded over the primary result. -/
theorem get_ip_location_eq (o : Oracles) (ip : String) :
    get_ip_location o ip =
      match ip_api_city o ip with
      | none => (geopy_address o ip, [Call.ipApiGet ip, Call.geopyReverse ip])
      | some l => (some l, [Call.ipApiGet ip]) := by
  unfold get_ip_location get_ip_location_with_ip_api get_ip_location_with_geopy
  cases ip_api_city o ip <;> rfl

/-- The geolocation chain calls ip-api once and geopy at most once, in that order;
in particular it never issues a DNS or plain HTTP call. -/
theorem get_ip_location_calls (o : Oracles) (ip : String) :
    (get_ip_location o ip).2 = [Call.ipApiGet ip] ∨
    (get_ip_location o ip).2 = [Call.ipApiGet ip, Call.geopyReverse ip] := by
  rw [get_ip_location_eq]
  cases ip_api_city o ip
  · exact Or.inr rfl
  · exact Or.inl rfl

/-- display_item on a record whose service lacks the http block: a warning naming
the position, no external call. -/
theorem display_item_warning (o : Oracles) (k : Nat) (item : RawItem)
    (hv : item.service_http_host = none) :
    display_item o k item = (.ok (.warning k), []) := by
  simp [display_item, hv]

/-- display_item on a valid record whose DNS resolution fails: the exception
escapes after the single DNS call. -/
theorem display_item_dns_error (o : Oracles) (k : Nat) (item : RawItem)
    (hostname : String) (e : ResolutionError)
    (hv : item.service_http_host = some hostname)
    (hd : o.dns hostname = .error e) :
    display_item o k item = (.error e, [Call.dnsResolve hostname]) := by
  simp [display_item, hv, check_cdn_usage_error o hostname e hd]

/-- display_item on a valid record resolving to fewer than two addresses: the row
carries the fixed 未知 verdict and no HTTP probe is issued. -/
theorem display_item_low_mult (o : Oracles) (k : Nat) (item : RawItem)
    (hostname : String) (addrs : List String)
    (hv : item.service_http_host = some hostname)
    (hd : o.dns hostname = .ok addrs) (hlen : addrs.length < 2) :
    display_item o k item =
      (.ok (.row { index := k, hostname := hostname, ip := item.ip,
                   port := item.port,
                   location := py_or_str (get_ip_location o item.ip).1 "未知",
                   cdn := some "未知" }),
       Call.dnsResolve hostname :: (get_ip_location o item.ip).2) := by
  simp [display_item, hv, check_cdn_usage_ok o hostname addrs hd,
        decide_eq_false (Nat.not_le.mpr hlen)]

/-- display_item on a valid record resolving to at least two addresses: the row
carries the header verdict of the probe, issued right after the DNS call. -/
theorem display_item_high_mult (o : Oracles) (k : Nat) (item : RawItem)
    (hostname : String) (addrs : List String)
    (hv : item.service_http_host = some hostname)
    (hd : o.dns hostname = .ok addrs) (hlen : 2 ≤ addrs.length) :
    display_item o k item =
      (.ok (.row { index := k, hostname := hostname, ip := item.ip,
                   port := item.port,
                   location := py_or_str (get_ip_location o item.ip).1 "未知",
                   cdn := cdn_header_verdict o ("http://" ++ hostname) }),
       Call.dnsResolve hostname :: Call.httpGet ("http://" ++ hostname)
         :: (get_ip_location o item.ip).2) := by
  simp [display_item, hv, check_cdn_usage_ok o hostname addrs hd,
        decide_eq_true hlen, identify_cdn_provider]

/-- The matching loop returns precisely the first catalog entry whose lowercased
name occurs in the given header text. -/
theorem first_matching_cdn_eq_find (l : List String) (h : String) :
    first_matching_cdn l h = l.find? (fun c => str_contains h (str_lower c)) := by
  induction l with
  | nil => rfl
  | cons a l ih =>
    cases hc : str_contains h (str_lower a) <;>
      simp [first_matching_cdn, List.find?, hc, ih]

/-- A successful display_item on a valid record always yields a table row whose
index, hostname, ip and port are the enumerated position and the record fields. -/
theorem display_item_ok_row (o : Oracles) (k : Nat) (item : RawItem)
    (hostname : String) (step : DisplayStep) (calls : List Call)
    (hv : item.service_http_host = some hostname)
    (h : display_item o k item = (.ok step, calls)) :
    ∃ loc cdn, step = .row { index := k, hostname := hostname, ip := item.ip,
                             port := item.port, location := loc, cdn := cdn } := by
  rcases hd : o.dns hostname with e | addrs
  · rw [display_item_dns_error o k item hostname e hv hd] at h
    simp at h
  · rcases Nat.lt_or_ge addrs.length 2 with hlen | hlen
    · rw [display_item_low_mult o k item hostname addrs hv hd hlen] at h
      obtain ⟨h1, h2⟩ := Prod.mk.injEq .. ▸ h
      exact ⟨_, _, (Except.ok.injEq _ _ ▸ h1 : _ = step).symm⟩
    · rw [display_item_high_mult o k item hostname addrs hv hd hlen] at h
      obtain ⟨h1, h2⟩ := Prod.mk.injEq .. ▸ h
      exact ⟨_, _, (Except.ok.injEq _ _ ▸ h1 : _ = step).symm⟩

/-- Shape of a successful display traversal: the table rows are exactly the valid
records in input order, and each row carries as index its 1-based position in the
raw page, warnings for skipped records included in the count. -/
theorem display_loop_rows_shape (o : Oracles) (data : List RawItem) :
    ∀ (k : Nat) (steps : List DisplayStep) (calls : List Call),
      display_loop o k data = (.ok steps, calls) →
      (display_rows steps).map (fun r => (r.index, r.hostname, r.ip, r.port)) =
        (data.enumFrom k).filterMap (fun p =>
          p.2.service_http_host.map (fun host => (p.1, host, p.2.ip, p.2.port))) := by
  induction data with
  | nil =>
    intro k steps calls h
    simp [display_loop] at h
    obtain ⟨h1, h2⟩ := h
    subst h1
    simp [display_rows, List.enumFrom]
  | cons item rest ih =>
    intro k steps calls h
    simp only [display_loop] at h
    rcases hdi : display_item o k item with ⟨res1, calls1⟩
    rw [hdi] at h
    cases res1 with
    | error e => simp at h
    | ok step1 =>
      rcases hr : display_loop o (k + 1) rest with ⟨res2, calls2⟩
      rw [hr] at h
      cases res2 with
      | error e => simp at h
      | ok steps2 =>
        simp at h
        obtain ⟨hsteps, hcalls⟩ := h
        subst hsteps
        cases hsh : item.service_http_host with
        | none =>
          rw [display_item_warning o k item hsh] at hdi
          obtain ⟨h1, h2⟩ := Prod.mk.injEq .. ▸ hdi
          have hstep : step1 = .warning k := by
            exact (Except.ok.injEq _ _ ▸ h1 : _ = step1).symm ▸ rfl
          subst hstep
          simp [display_rows, List.enumFrom, hsh] at ih ⊢
          exact ih (k + 1) steps2 calls2 hr
        | some hostname =>
          obtain ⟨loc, cdn, hstep⟩ :=
            display_item_ok_row o k item hostname step1 calls1 hsh hdi
          subst hstep
          simp [display_rows, List.enumFrom, hsh] at ih ⊢
          exact ih (k + 1) steps2 calls2 hr

/-- The geolocation chain never issues a plain HTTP GET. -/
theorem no_probe_in_location_calls (o : Oracles) (ip url : String) :
    Call.httpGet url ∉ (get_ip_location o ip).2 := by
  rcases get_ip_location_calls o ip with h | h <;> rw [h] <;> simp

/-- store_to_database raises KeyError on any page containing a record whose
service lacks the http block. -/
theorem store_rows_error_of_invalid (data : List RawItem)
    (h : ∃ item, item ∈ data ∧ item.service_http_host = none) :
    store_rows data = .error "http" := by
  induction data with
  | nil =>
    rcases h with ⟨item, hmem, _⟩
    cases hmem
  | cons a rest ih =>
    rcases h with ⟨item, hmem, hinv⟩
    rcases hsh : a.service_http_host with _ | host
    · simp [store_rows, hsh]
    · have hrest : ∃ it, it ∈ rest ∧ it.service_http_host = none := by
        rcases List.mem_cons.mp hmem with rfl | hm
        · rw [hsh] at hinv; cases hinv
        · exact ⟨item, hm, hinv⟩
      simp [store_rows, hsh, ih hrest]

/-- The export comprehension raises KeyError on any page containing a record
whose service lacks the http block, whatever the starting index. -/
theorem export_loop_error_of_invalid (o : Oracles) (data : List RawItem)
    (h : ∃ item, item ∈ data ∧ item.service_http_host = none) :
    ∀ j, (export_loop o j data).1 = .error "http" := by
  induction data with
  | nil =>
    rcases h with ⟨item, hmem, _⟩
    cases hmem
  | cons a rest ih =>
    intro j
    rcases h with ⟨item, hmem, hinv⟩
    rcases hsh : a.service_http_host with _ | host
    · simp [export_loop, export_item, hsh]
    · have hrest : ∃ it, it ∈ rest ∧ it.service_http_host = none := by
        rcases List.mem_cons.mp hmem with rfl | hm
        · rw [hsh] at hinv; cases hinv
        · exact ⟨item, hm, hinv⟩
      have hr := ih hrest (j + 1)
      rcases hl : export_loop o (j + 1) rest with ⟨res2, calls2⟩
      rw [hl] at hr
      simp at hr
      subst hr
      simp [export_loop, export_item, hsh, hl]

/-- C1, counterexample: on the raw page [A valid, B invalid, C valid] under a
concrete oracle the table indices are [1, 3], not the dense [1, 2] the claim
requires — the invalid middle record does consume an index. -/
theorem c1_counterexample :
    display_index_column oracle_single_ip page_with_invalid = [1, 3] ∧
    display_index_column oracle_single_ip page_with_invalid ≠ [1, 2] := by
  constructor
  · rfl
  · decide

/-- C1, amended: a successful display traversal preserves the input order of valid
records, but each emitted row is numbered by its 1-based position in the raw page
with invalid records included in the count, so indices are strictly increasing yet
not dense — the page [A valid, B invalid, C valid] yields indices 1 and 3. -/
theorem c1_indices_are_raw_positions (o : Oracles) (data : List RawItem)
    (steps : List DisplayStep) (calls : List Call)
    (h : display_results o data = (.ok steps, calls)) :
    (display_rows steps).map (fun r => (r.index, r.hostname, r.ip, r.port)) =
      (data.enumFrom 1).filterMap (fun p =>
        p.2.service_http_host.map (fun host => (p.1, host, p.2.ip, p.2.port))) :=
  display_loop_rows_shape o data 1 steps calls h

/-- C1, witness: the amended theorem applied to the concrete page and oracle. -/
theorem c1_witness :
    (display_rows
        [DisplayStep.row { index := 1, hostname := "a.example", ip := "192.0.2.1",
                           port := 80, location := "未知", cdn := some "未知" },
         DisplayStep.warning 2,
         DisplayStep.row { index := 3, hostname := "c.example", ip := "192.0.2.3",
                           port := 82, location := "未知", cdn := some "未知" }]).map
        (fun r => (r.index, r.hostname, r.ip, r.port)) =
      (page_with_invalid.enumFrom 1).filterMap (fun p =>
        p.2.service_http_host.map (fun host => (p.1, host, p.2.ip, p.2.port))) :=
  c1_indices_are_raw_positions oracle_single_ip page_with_invalid _ _ rfl

/-- C2, counterexample: on a page of two valid records whose first hostname fails
DNS resolution, the traversal aborts with the uncaught resolver error after the
very first DNS call — no record is emitted (the claim requires both records
emitted with Unknown fields), and the second record is never consulted. -/
theorem c2_counterexample :
    display_results oracle_dns_failure page_two_valid =
      (.error ResolutionError.nxdomain, [Call.dnsResolve "down.example"]) := rfl

/-- C2, amended: a DNS resolution failure while enriching a record is NOT absorbed:
check_cdn_usage has no handler, so the error propagates out of the display loop,
dropping the failing record and all subsequent ones; only when DNS succeeds is the
record always emitted as a row, whatever the HTTP probe and geolocation oracles do
(those failures are absorbed per record). -/
theorem c2_dns_error_aborts (o : Oracles) (k : Nat) (item : RawItem)
    (rest : List RawItem) (hostname : String)
    (hv : item.service_http_host = some hostname) :
    (∀ e, o.dns hostname = .error e →
      display_loop o k (item :: rest) = (.error e, [Call.dnsResolve hostname])) ∧
    (∀ addrs, o.dns hostname = .ok addrs →
      ∃ r calls, display_item o k item = (.ok (.row r), calls)) := by
  constructor
  · intro e hd
    simp [display_loop, display_item_dns_error o k item hostname e hv hd]
  · intro addrs hd
    rcases Nat.lt_or_ge addrs.length 2 with hlen | hlen
    · exact ⟨_, _, display_item_low_mult o k item hostname addrs hv hd hlen⟩
    · exact ⟨_, _, display_item_high_mult o k item hostname addrs hv hd hlen⟩

/-- C2, witness: the amended theorem applied to the concrete failing oracle. -/
theorem c2_witness :
    display_loop oracle_dns_failure 1 page_two_valid =
      (.error ResolutionError.nxdomain, [Call.dnsResolve "down.example"]) :=
  (c2_dns_error_aborts oracle_dns_failure 1
      { ip := "192.0.2.10", port := 80, service_http_host := some "down.example" }
      [{ ip := "192.0.2.11", port := 80, service_http_host := some "up.example" }]
      "down.example" rfl).1 ResolutionError.nxdomain rfl

/-- C3, counterexample: under an oracle resolving every hostname to a single
address, the spreadsheet-export path still issues the HTTP probe and classifies
the record by its Server header (cloudflare), contradicting the claim that no sink
path probes a record of multiplicity below two and that its verdict is NotCdn. -/
theorem c3_counterexample :
    (export_to_excel_data oracle_single_ip page_single_valid).1 =
      .ok [{ index := 1, hostname := "solo.example", ip := "192.0.2.5", port := 443,
             location := none, cdn := some "cloudflare" }] ∧
    Call.httpGet "http://solo.example" ∈
      (export_to_excel_data oracle_single_ip page_single_valid).2 := by
  constructor
  · rfl
  · decide

/-- C3, amended: only the table-display path gates on DNS multiplicity — below two
addresses it emits the fixed 未知 verdict and issues no HTTP probe for the record —
while the spreadsheet-export path issues the probe unconditionally, never
consulting DNS multiplicity at all. -/
theorem c3_multiplicity_gate (o : Oracles) (k j : Nat) (item : RawItem)
    (hostname : String) (addrs : List String)
    (hv : item.service_http_host = some hostname)
    (hd : o.dns hostname = .ok addrs) (hlen : addrs.length < 2) :
    (∃ r calls, display_item o k item = (.ok (.row r), calls) ∧
       r.cdn = some "未知" ∧ ∀ url, Call.httpGet url ∉ calls) ∧
    Call.httpGet ("http://" ++ hostname) ∈ (export_item o j item).2 := by
  constructor
  · refine ⟨_, _, display_item_low_mult o k item hostname addrs hv hd hlen, rfl, ?_⟩
    intro url hmem
    rcases List.mem_cons.mp hmem with heq | hmem2
    · simp at heq
    · exact no_probe_in_location_calls o item.ip url hmem2
  · simp [export_item, hv, identify_cdn_provider]

/-- C3, witness: the amended theorem applied to the concrete single-address
oracle, projected to the export-path probe. -/
theorem c3_witness :
    Call.httpGet "http://solo.example" ∈
      (export_item oracle_single_ip 0 item_solo).2 :=
  (c3_multiplicity_gate oracle_single_ip 1 0 item_solo "solo.example"
      ["198.51.100.7"] rfl rfl (by decide)).2

/-- C4, counterexample: for the same raw page and the same resolver results, the
table CDN column reads 未知 (the display path suppressed the probe at multiplicity
one) while the spreadsheet CDN column reads cloudflare — the sinks do not consume
one shared enriched sequence, each recomputes enrichment with different logic. -/
theorem c4_counterexample :
    display_cdn_column oracle_single_ip page_single_valid = [some "未知"] ∧
    export_cdn_column oracle_single_ip page_single_valid = [some "cloudflare"] ∧
    display_cdn_column oracle_single_ip page_single_valid ≠
      export_cdn_column oracle_single_ip page_single_valid := by
  refine ⟨rfl, rfl, ?_⟩
  decide

/-- C4, amended: each sink recomputes enrichment from the raw page rather than
consuming one shared sequence; for a valid record of DNS multiplicity at least
two, table row and spreadsheet row agree on index, hostname, ip, port and CDN
verdict, the table location being the falsy-default rendering of the export
location — while at lower multiplicity the CDN fields can differ. -/
theorem c4_sinks_agree_when_multihomed (o : Oracles) (j : Nat) (item : RawItem)
    (hostname : String) (addrs : List String)
    (hv : item.service_http_host = some hostname)
    (hd : o.dns hostname = .ok addrs) (hlen : 2 ≤ addrs.length) :
    (display_item o (j + 1) item).1 =
      .ok (.row { index := j + 1, hostname := hostname, ip := item.ip,
                  port := item.port,
                  location := py_or_str (get_ip_location o item.ip).1 "未知",
                  cdn := cdn_header_verdict o ("http://" ++ hostname) }) ∧
    (export_item o j item).1 =
      .ok { index := j + 1, hostname := hostname, ip := item.ip, port := item.port,
            location := (get_ip_location o item.ip).1,
            cdn := cdn_header_verdict o ("http://" ++ hostname) } := by
  constructor
  · rw [display_item_high_mult o (j + 1) item hostname addrs hv hd hlen]
  · simp [export_item, hv, identify_cdn_provider]

/-- C4, witness: the amended theorem applied to a concrete multi-homed oracle,
projected to the spreadsheet row. -/
theorem c4_witness :
    (export_item oracle_multi_ip 0 item_solo).1 =
      .ok { index := 1, hostname := "solo.example", ip := "192.0.2.5", port := 443,
            location := (get_ip_location oracle_multi_ip "192.0.2.5").1,
            cdn := cdn_header_verdict oracle_multi_ip "http://solo.example" } :=
  (c4_sinks_agree_when_multihomed oracle_multi_ip 0 item_solo "solo.example"
      ["198.51.100.7", "198.51.100.8"] rfl rfl (by decide)).2

/-- C5: the geolocation chain queries the primary ip-api provider first (it heads
the call list); a primary city short-circuits the chain, a primary failure
triggers exactly one secondary geopy attempt, both failing yields absent, and a
primary city is only ever produced from a delivered response with a non-error
status, an explicit success status field, and a present city field. The Option
result type carries no exception path: every provider failure is absorbed. -/
theorem c5_geolocation_fallback_chain (o : Oracles) (ip : String) :
    ((get_ip_location o ip).2.head? = some (Call.ipApiGet ip)) ∧
    (∀ c, ip_api_city o ip = some c →
      get_ip_location o ip = (some c, [Call.ipApiGet ip])) ∧
    (ip_api_city o ip = none →
      get_ip_location o ip =
        (geopy_address o ip, [Call.ipApiGet ip, Call.geopyReverse ip])) ∧
    (∀ c, ip_api_city o ip = some c → ∃ r, o.ipApi ip = .ok r ∧
      raise_for_status_raises r.status = false ∧
      json_lookup r.body "status" = some "success" ∧
      json_lookup r.body "city" = some c) := by
  refine ⟨?_, ?_, ?_, ?_⟩
  · rw [get_ip_location_eq]
    cases ip_api_city o ip <;> rfl
  · intro c hc
    rw [get_ip_location_eq, hc]
  · intro hc
    rw [get_ip_location_eq, hc]
  · intro c hc
    unfold ip_api_city at hc
    split at hc
    · exact absurd hc (by simp)
    · rename_i r heq
      split at hc
      · exact absurd hc (by simp)
      · rename_i hrs
        split at hc
        · exact absurd hc (by simp)
        · rename_i s hst
          split at hc
          · rename_i hsucc
            exact ⟨r, heq, by simpa using hrs,
                   by rw [hst, eq_of_beq hsucc], hc⟩
          · exact absurd hc (by simp)

/-- C5, witness: under the concrete oracle whose primary fails, the chain is the
two-element fallback sequence ending in the secondary result. -/
theorem c5_witness :
    get_ip_location oracle_single_ip "203.0.113.9" =
      (geopy_address oracle_single_ip "203.0.113.9",
       [Call.ipApiGet "203.0.113.9", Call.geopyReverse "203.0.113.9"]) :=
  (c5_geolocation_fallback_chain oracle_single_ip "203.0.113.9").2.2.1 rfl

/-- C6: for a valid record of DNS multiplicity at least two whose probe delivers a
response with a non-error status, the displayed CDN verdict is exactly the first
catalog entry whose lowercased name occurs as a substring of the lowercased Server
header (an absent header defaults to the empty string, which matches nothing), and
any returned provider is the canonical catalog name. -/
theorem c6_header_matching (o : Oracles) (k : Nat) (item : RawItem)
    (hostname : String) (addrs : List String) (r : HttpResponse)
    (hv : item.service_http_host = some hostname)
    (hd : o.dns hostname = .ok addrs) (hlen : 2 ≤ addrs.length)
    (hp : o.httpGet ("http://" ++ hostname) = .ok r)
    (hs : raise_for_status_raises r.status = false) :
    (display_item o k item).1 =
      .ok (.row { index := k, hostname := hostname, ip := item.ip, port := item.port,
                  location := py_or_str (get_ip_location o item.ip).1 "未知",
                  cdn := COMMON_CDN_NAMES.find? (fun c =>
                    str_contains (str_lower (headers_get r.headers "Server" ""))
                      (str_lower c)) }) ∧
    (∀ p, COMMON_CDN_NAMES.find? (fun c =>
        str_contains (str_lower (headers_get r.headers "Server" "")) (str_lower c)) =
          some p → p ∈ COMMON_CDN_NAMES) := by
  constructor
  · rw [display_item_high_mult o k item hostname addrs hv hd hlen]
    simp [cdn_header_verdict, hp, hs, first_matching_cdn_eq_find]
  · intro p hp2
    exact List.mem_of_find?_eq_some hp2

/-- C6, witness: the matching theorem applied to the concrete mixed-case
Fastly CDN header under the multi-homed oracle. -/
theorem c6_witness :
    (display_item oracle_multi_ip 1 item_solo).1 =
      .ok (.row { index := 1, hostname := "solo.example", ip := "192.0.2.5",
                  port := 443,
                  location := py_or_str
                    (get_ip_location oracle_multi_ip "192.0.2.5").1 "未知",
                  cdn := COMMON_CDN_NAMES.find? (fun c =>
                    str_contains
                      (str_lower (headers_get [("Server", "Fastly CDN")] "Server" ""))
                      (str_lower c)) }) :=
  (c6_header_matching oracle_multi_ip 1 item_solo "solo.example"
      ["198.51.100.7", "198.51.100.8"]
      { status := 200, headers := [("Server", "Fastly CDN")] }
      rfl rfl (by decide) rfl rfl).1

/-- C7, counterexample: a probe delivering a 304 Not Modified — a non-2xx status —
with a cloudflare Server header yields the verdict cloudflare in the table, not
Unknown: raise_for_status only raises for 4xx/5xx, so 3xx responses proceed to
header matching, contradicting the claim that every non-2xx probe yields Unknown. -/
theorem c7_counterexample :
    display_cdn_column oracle_not_modified page_single_valid = [some "cloudflare"] ∧
    (some "cloudflare" : Option String) ≠ none :=
  ⟨rfl, by decide⟩

/-- C7, amended: for a valid record of DNS multiplicity at least two, a probe
failing with a connection error or timeout, or delivering a 4xx/5xx status, yields
the verdict None (rendered Unknown) and the record is still emitted as a row;
other non-2xx statuses such as 3xx are not treated as failures. -/
theorem c7_probe_failure_yields_unknown (o : Oracles) (k : Nat) (item : RawItem)
    (hostname : String) (addrs : List String)
    (hv : item.service_http_host = some hostname)
    (hd : o.dns hostname = .ok addrs) (hlen : 2 ≤ addrs.length) :
    (∀ e, o.httpGet ("http://" ++ hostname) = .error e →
      (display_item o k item).1 =
        .ok (.row { index := k, hostname := hostname, ip := item.ip,
                    port := item.port,
                    location := py_or_str (get_ip_location o item.ip).1 "未知",
                    cdn := none })) ∧
    (∀ r, o.httpGet ("http://" ++ hostname) = .ok r →
      raise_for_status_raises r.status = true →
      (display_item o k item).1 =
        .ok (.row { index := k, hostname := hostname, ip := item.ip,
                    port := item.port,
                    location := py_or_str (get_ip_location o item.ip).1 "未知",
                    cdn := none })) := by
  constructor
  · intro e hp
    rw [display_item_high_mult o k item hostname addrs hv hd hlen]
    simp [cdn_header_verdict, hp]
  · intro r hp hrs
    rw [display_item_high_mult o k item hostname addrs hv hd hlen]
    simp [cdn_header_verdict, hp, hrs]

/-- C7, witness: the amended theorem applied to the concrete timing-out probe. -/
theorem c7_witness :
    (display_item oracle_probe_down 1 item_solo).1 =
      .ok (.row { index := 1, hostname := "solo.example", ip := "192.0.2.5",
                  port := 443,
                  location := py_or_str
                    (get_ip_location oracle_probe_down "192.0.2.5").1 "未知",
                  cdn := none }) :=
  (c7_probe_failure_yields_unknown oracle_probe_down 1 item_solo "solo.example"
      ["198.51.100.7", "198.51.100.8"] rfl rfl (by decide)).1
    RequestError.timeout rfl

/-- C8: on any page containing a record whose service lacks the http block, the
database store and the spreadsheet export both raise KeyError on the http key,
so the per-query run of main cannot complete (it aborts at the store, right after
the table traversal); only the display path filters such records, emitting a
warning naming the position and issuing no external call for them. -/
theorem c8_invalid_record_key_error (o : Oracles) (data : List RawItem)
    (h : ∃ item, item ∈ data ∧ item.service_http_host = none) :
    store_rows data = .error "http" ∧
    (export_loop o 0 data).1 = .error "http" ∧
    (∀ x, main_run o data ≠ .ok x) ∧
    (∀ k item, item.service_http_host = none →
      display_item o k item = (.ok (.warning k), [])) := by
  refine ⟨store_rows_error_of_invalid data h,
          export_loop_error_of_invalid o data h 0, ?_, ?_⟩
  · intro x hx
    unfold main_run at hx
    split at hx
    · cases hx
    · rw [store_rows_error_of_invalid data h] at hx
      simp at hx
  · intro k item hv
    exact display_item_warning o k item hv

/-- C8, witness: the theorem applied to the concrete page whose middle record
lacks the http block, projected to the database store. -/
theorem c8_witness :
    store_rows page_with_invalid = .error "http" :=
  (c8_invalid_record_key_error oracle_single_ip page_with_invalid
      ⟨{ ip := "192.0.2.2", port := 81, service_http_host := none },
       by decide, rfl⟩).1

/-- The replaced character never survives a replace_char pass whose replacement
avoids it. -/
theorem not_mem_replace_char (old : Char) (new : List Char) (l : List Char)
    (h : old ∉ new) : old ∉ replace_char old new l := by
  induction l with
  | nil => simp [replace_char]
  | cons c cs ih =>
    intro hmem
    rw [replace_char] at hmem
    rcases List.mem_append.mp hmem with h1 | h2
    · by_cases hc : c = old
      · rw [if_pos hc] at h1
        exact h h1
      · rw [if_neg hc] at h1
        simp at h1
        exact hc h1.symm
    · exact ih h2

/-- A character distinct from the pattern survives a replace_char pass. -/
theorem mem_replace_char_of_ne (old : Char) (new : List Char) (l : List Char)
    (c : Char) (hne : c ≠ old) (h : c ∈ l) : c ∈ replace_char old new l := by
  induction l with
  | nil => cases h
  | cons a cs ih =>
    rw [replace_char]
    rcases List.mem_cons.mp h with rfl | hm
    · rw [if_neg hne]
      simp
    · exact List.mem_append.mpr (Or.inr (ih hm))

/-- Every character of a replace_char result comes from the replacement or from
the original list. -/
theorem mem_of_mem_replace_char (old : Char) (new l : List Char) (c : Char)
    (h : c ∈ replace_char old new l) : c ∈ new ∨ c ∈ l := by
  induction l with
  | nil => simp [replace_char] at h
  | cons a cs ih =>
    rw [replace_char] at h
    rcases List.mem_append.mp h with h1 | h2
    · by_cases ha : a = old
      · rw [if_pos ha] at h1
        exact Or.inl h1
      · rw [if_neg ha] at h1
        simp at h1
        exact Or.inr (by simp [h1])
    · rcases ih h2 with hn | hl
      · exact Or.inl hn
      · exact Or.inr (List.mem_cons_of_mem a hl)

/-- C9, counterexample: the query a.b maps to the file name quake_results_a.b.xlsx,
so the dot — a non-alphanumeric character of the query — survives into the file
name: the code only handles space, colon and double quote, not all
non-alphanumeric characters as the claim states. -/
theorem c9_counterexample :
    query_filename "a.b" = "a.b" ∧
    export_file_name "a.b" = "quake_results_a.b.xlsx" ∧
    '.' ∈ (query_filename "a.b").data ∧ Char.isAlphanum '.' = false :=
  ⟨rfl, rfl, by decide, by decide⟩

/-- C9, amended: the file name is a deterministic pure function of the query in
which every space becomes an underscore and every colon and double quote is
removed — the result contains none of those three characters, keeps every other
query character verbatim (non-alphanumeric ones included), and introduces nothing
beyond underscores. -/
theorem c9_filename_characterization (q : String) :
    (' ' ∉ (query_filename q).data ∧ ':' ∉ (query_filename q).data ∧
      '\x22' ∉ (query_filename q).data) ∧
    (∀ c, c ∈ q.data → c ≠ ' ' → c ≠ ':' → c ≠ '\x22' →
      c ∈ (query_filename q).data) ∧
    (∀ c, c ∈ (query_filename q).data → c ∈ q.data ∨ c = '_') ∧
    export_file_name q = "quake_results_" ++ query_filename q ++ ".xlsx" := by
  have hdata : (query_filename q).data =
      replace_char '\x22' [] (replace_char ':' []
        (replace_char ' ' ['_'] q.data)) := rfl
  refine ⟨⟨?_, ?_, ?_⟩, ?_, ?_, rfl⟩
  · rw [hdata]
    intro hmem
    rcases mem_of_mem_replace_char _ _ _ _ hmem with h1 | h2
    · cases h1
    · rcases mem_of_mem_replace_char _ _ _ _ h2 with h3 | h4
      · cases h3
      · exact not_mem_replace_char ' ' ['_'] q.data (by decide) h4
  · rw [hdata]
    intro hmem
    rcases mem_of_mem_replace_char _ _ _ _ hmem with h1 | h2
    · cases h1
    · exact not_mem_replace_char ':' [] (replace_char ' ' ['_'] q.data)
        (by simp) h2
  · rw [hdata]
    exact not_mem_replace_char '\x22' []
      (replace_char ':' [] (replace_char ' ' ['_'] q.data)) (by simp)
  · intro c hq h1 h2 h3
    rw [hdata]
    exact mem_replace_char_of_ne _ _ _ c h3
      (mem_replace_char_of_ne _ _ _ c h2
        (mem_replace_char_of_ne _ _ _ c h1 hq))
  · intro c hmem
    rw [hdata] at hmem
    rcases mem_of_mem_replace_char _ _ _ _ hmem with h1 | h2
    · cases h1
    · rcases mem_of_mem_replace_char _ _ _ _ h2 with h3 | h4
      · cases h3
      · rcases mem_of_mem_replace_char _ _ _ _ h4 with h5 | h6
        · right
          simpa using h5
        · exact Or.inl h6

/-- C9, witness: a character of the query that is none of the three handled ones
survives into the file name. -/
theorem c9_witness :
    'x' ∈ (query_filename "x:y z").data :=
  (c9_filename_characterization "x:y z").2.1 'x'
    (by decide) (by decide) (by decide) (by decide)

/-- C10: enrichment is deterministic — the display traversal and the export
computation depend only on the pointwise behaviour of the resolver oracles, so two
runs over the same raw page with identical resolver results produce identical step
sequences (indices, hostnames, ips, ports, locations, CDN verdicts, in the same
order) and identical call traces, for both sinks. -/
theorem c10_two_run_determinism (o1 o2 : Oracles) (data : List RawItem)
    (hdns : ∀ h, o1.dns h = o2.dns h)
    (hhttp : ∀ u, o1.httpGet u = o2.httpGet u)
    (hip : ∀ i, o1.ipApi i = o2.ipApi i)
    (hgeo : ∀ i, o1.geopyReverse i = o2.geopyReverse i) :
    display_results o1 data = display_results o2 data ∧
    export_to_excel_data o1 data = export_to_excel_data o2 data := by
  have ho : o1 = o2 := by
    obtain ⟨d1, h1, i1, g1⟩ := o1
    obtain ⟨d2, h2, i2, g2⟩ := o2
    simp only [Oracles.mk.injEq]
    exact ⟨funext hdns, funext hhttp, funext hip, funext hgeo⟩
  rw [ho]
  exact ⟨rfl, rfl⟩

/-- C10, witness: two syntactically distinct but pointwise equal oracle values
drive the display traversal to the same output. -/
theorem c10_witness :
    display_results oracle_single_ip page_with_invalid =
      display_results oracle_single_ip_alt page_with_invalid :=
  (c10_two_run_determinism oracle_single_ip oracle_single_ip_alt page_with_invalid
      (fun _ => rfl) (fun _ => rfl) (fun _ => rfl) (fun _ => rfl)).1

end GUIEnterpriseTI
